import Mathlib

/-!
Verification development for the gobank repository (Go).

The repository contains two generations of the API server and storage layer:

* the "V0" generation (api.go lines 1-181 together with storage.go): a JWT-enabled
  server whose account table has columns id, first_name, last_name, number,
  balance, created_at;
* the "V1" generation (api.go lines 182-313 together with the storage variant at
  api.go lines 314-512, and types.go): a server without JWT whose account table has
  columns id, first_name, last_name, email, encrypted_password, balance, created_at.

Pure data and control flow are embedded directly.  External effects are made
explicit: the database becomes a state value threaded through the storage
functions, the ambient clock becomes a Nat parameter, the JSON decoder's outcome
becomes an Option parameter, and the bcrypt and HMAC libraries (third-party code,
not part of this repository) are modelled as total functions whose outputs are
kept fully distinguishable, which is the guarantee the code relies on.

Note on composition: handleCreateAccount in api.go calls NewAccount with two
arguments (an older signature); types.go, the only NewAccount in the sources,
takes first name, last name, email and password.  The V1 pipeline below is the
composition with the four-argument NewAccount of types.go, whose inputs are
exactly the fields of CreateAccountRequest.
-/

deriving instance DecidableEq for Except

/-- CreateAccountRequest (types.go lines 9-14).  The validate struct tags
(required, min=1, min=8, email) are recorded separately in
createAccountValidateTags; no code in the repository interprets them. -/
structure CreateAccountRequest where
  FirstName : String
  LastName : String
  Email : String
  Password : String
  deriving DecidableEq

/-- The validate struct tags declared on CreateAccountRequest (types.go lines
9-14), as data.  No validator package is imported anywhere in the repository,
so these tags are never evaluated. -/
def createAccountValidateTags : List (String × String) :=
  [("FirstName", "required,min=1"), ("LastName", "required,min=1"),
   ("Email", "required,email"), ("Password", "required,min=8")]

/-- Account (types.go lines 16-25).  CreatedAt abstracts the time.Time instant
as a Nat.  The json tags are modelled by Account.jsonFields below; the
EncryptedPassword field carries the json tag "-". -/
structure Account where
  ID : Int
  FirstName : String
  LastName : String
  Email : String
  Phone : Int
  EncryptedPassword : String
  Balance : Int
  CreatedAt : Nat
  deriving DecidableEq

/-- A rendered JSON value, just fine-grained enough to state what the encoder
emits for each field. -/
inductive JVal where
  | num (n : Int)
  | str (s : String)
  | time (t : Nat)
  deriving DecidableEq

/-- The JSON object Go's encoding/json produces for an Account: exported fields
in declaration order, keyed by their json tags (types.go lines 16-25).  The
field EncryptedPassword has the tag "-", which tells the encoder to omit the
field entirely, so it does not appear here. -/
def Account.jsonFields (a : Account) : List (String × JVal) :=
  [("id", JVal.num a.ID),
   ("firstName", JVal.str a.FirstName),
   ("lastName", JVal.str a.LastName),
   ("email", JVal.str a.Email),
   ("phone", JVal.num a.Phone),
   ("balance", JVal.num a.Balance),
   ("createdAt", JVal.time a.CreatedAt)]

/-- The bcrypt library call bcrypt.GenerateFromPassword (external code).
Modelled as a total tagged injection: the repository only stores the digest and
threads the error, never inspecting either. -/
def bcryptGenerateFromPassword (password : String) : Except String String :=
  Except.ok (String.append "bcrypt2a10$" password)

/-- NewAccount (types.go lines 32-44): hashes the password, sets CreatedAt to
the current UTC time (the explicit now parameter), and leaves ID, Phone and
Balance at their Go zero values.  It performs no validation of any input. -/
def NewAccount (firstName lastName email password : String) (now : Nat) :
    Except String Account :=
  match bcryptGenerateFromPassword password with
  | Except.error e => Except.error e
  | Except.ok encpw =>
      Except.ok { ID := 0, FirstName := firstName, LastName := lastName,
                  Email := email, Phone := 0, EncryptedPassword := encpw,
                  Balance := 0, CreatedAt := now }

/-- One row of the V1 account table (create statement at api.go lines 467-475):
id serial primary key, first/last name, email, encrypted_password, balance,
created_at.  No column carries a UNIQUE constraint apart from the key. -/
structure PGRow where
  id : Int
  firstName : String
  lastName : String
  email : String
  encryptedPassword : String
  balance : Int
  createdAt : Nat
  deriving DecidableEq

/-- The V1 database: the rows of the account table plus the next value of the
id serial sequence. -/
structure PGState where
  rows : List PGRow
  nextId : Int
  deriving DecidableEq

namespace StorageV1

/-- PostgresStore.CreateAccount (api.go lines 392-408): a single INSERT of the
in-memory account's columns; the serial assigns the row id.  The statement has
no uniqueness pre-check and the result (and thus the assigned id) is only
printed, never returned. -/
def CreateAccount (st : PGState) (acc : Account) : Except String PGState :=
  Except.ok
    { rows := st.rows ++
        [{ id := st.nextId, firstName := acc.FirstName, lastName := acc.LastName,
           email := acc.Email, encryptedPassword := acc.EncryptedPassword,
           balance := acc.Balance, createdAt := acc.CreatedAt }],
      nextId := st.nextId + 1 }

/-- PostgresStore.GetAccountByID (api.go lines 410-426): SELECT by id; scanning
an empty result set is the error case. -/
def GetAccountByID (st : PGState) (id : Int) : Except String PGRow :=
  match st.rows.find? (fun r => r.id == id) with
  | some r => Except.ok r
  | none => Except.error "could not parse sql result for account"

/-- PostgresStore.GetAccountByEmail (api.go lines 496-512): SELECT by email,
first matching row. -/
def GetAccountByEmail (st : PGState) (email : String) : Except String PGRow :=
  match st.rows.find? (fun r => r.email == email) with
  | some r => Except.ok r
  | none => Except.error "could not parse sql result for account"

/-- PostgresStore.DeleteAccount (api.go lines 432-439): DELETE FROM account
WHERE id equals the argument. -/
def DeleteAccount (st : PGState) (id : Int) : Except String PGState :=
  Except.ok { st with rows := st.rows.filter (fun r => r.id != id) }

end StorageV1

/-- handleCreateAccount of the V1 server (api.go lines 284-294), composed with
the four-argument NewAccount of types.go (see the file comment): decode the
body, build the account, insert it, and on success respond 200 with the
in-memory account value (whose ID was never updated from the database).
The Option body is the JSON decoder's outcome; now is the ambient clock. -/
def handleCreateAccount (st : PGState) (body : Option CreateAccountRequest)
    (now : Nat) : PGState × Except String Account :=
  match body with
  | none => (st, Except.error "could not decode create account request")
  | some req =>
      match NewAccount req.FirstName req.LastName req.Email req.Password now with
      | Except.error e => (st, Except.error e)
      | Except.ok account =>
          match StorageV1.CreateAccount st account with
          | Except.error e => (st, Except.error e)
          | Except.ok st2 => (st2, Except.ok account)

/-- TransferRequest (types.go lines 27-30). -/
structure TransferRequest where
  ToAccount : Int
  Amount : Int
  deriving DecidableEq

/-- handleTransfer (api.go lines 164-172 and identically 296-304): decode the
body and echo it back with status 200.  The handler never reads the request
method (there is no switch on r.Method, unlike handleAccount) and never touches
the store; the method parameter records the incoming method so that this
independence can be stated. -/
def handleTransfer (st : PGState) (method : String)
    (body : Option TransferRequest) : PGState × Except String TransferRequest :=
  match body with
  | none => (st, Except.error "could not decode transfer request")
  | some tr => (st, Except.ok tr)

/-- The number of rows of the V1 table carrying a given email. -/
def PGState.emailCount (st : PGState) (email : String) : Nat :=
  (st.rows.filter (fun r => r.email == email)).length

/-- An empty V1 database with the serial at its initial value 1. -/
def pgEmpty : PGState := { rows := [], nextId := 1 }

/-- The account-creation request of the spec's worked example:
firstName a, lastName b, email abc@abc.com, password qwerty12. -/
def exampleReq : CreateAccountRequest :=
  { FirstName := "a", LastName := "b", Email := "abc@abc.com", Password := "qwerty12" }

/-- A request violating every declared constraint: empty names, an email with
no at-sign, and a one-character password. -/
def badReq : CreateAccountRequest :=
  { FirstName := "", LastName := "", Email := "not-an-email", Password := "x" }

/-- Two consecutive account creations with the identical example request,
starting from the empty database. -/
def twoCreates : PGState × Except String Account :=
  let r1 := handleCreateAccount pgEmpty (some exampleReq) 0
  handleCreateAccount r1.1 (some exampleReq) 1

/-- The V0 account record, with the fields the V0 storage layer reads and
writes (storage.go lines 92-109: id, first_name, last_name, number, balance,
created_at) and the JWT code uses (api.go line 57: account.Number). -/
structure AccountV0 where
  ID : Int
  FirstName : String
  LastName : String
  Number : Int
  Balance : Int
  CreatedAt : Nat
  deriving DecidableEq

/-- One row of the V0 account table (create statement at storage.go lines
149-161): id serial primary key, first/last name, number, balance,
created_at. -/
structure GBRow where
  id : Int
  firstName : String
  lastName : String
  number : Int
  balance : Int
  createdAt : Nat
  deriving DecidableEq

/-- The V0 database: the rows of the account table plus the next value of the
id serial sequence. -/
structure GBState where
  rows : List GBRow
  nextId : Int
  deriving DecidableEq

namespace StorageV0

/-- PostgresStore.CreateAccount (storage.go lines 76-90): a single INSERT of
first_name, last_name, number, balance, created_at; the serial assigns the row
id, which is never returned to the caller. -/
def CreateAccount (st : GBState) (acc : AccountV0) : Except String GBState :=
  Except.ok
    { rows := st.rows ++
        [{ id := st.nextId, firstName := acc.FirstName, lastName := acc.LastName,
           number := acc.Number, balance := acc.Balance, createdAt := acc.CreatedAt }],
      nextId := st.nextId + 1 }

/-- PostgresStore.GetAccountByID (storage.go lines 92-109): QueryRow plus Scan;
an empty result is the error case. -/
def GetAccountByID (st : GBState) (id : Int) : Except String GBRow :=
  match st.rows.find? (fun r => r.id == id) with
  | some r => Except.ok r
  | none => Except.error "could not get account"

/-- PostgresStore.DeleteAccount (storage.go lines 113-115): the body is a bare
return nil.  No SQL statement is issued and the state is returned unchanged,
yet the caller observes success. -/
def DeleteAccount (st : GBState) (id : Int) : Except String GBState :=
  Except.ok st

end StorageV0

/-- The DELETE branch of handleAccountByID (api.go lines 119-124): call the
store's DeleteAccount and, when it reports no error, respond 200 with the
string OK. -/
def handleAccountByIDDelete (st : GBState) (id : Int) :
    GBState × Except String String :=
  match StorageV0.DeleteAccount st id with
  | Except.error e => (st, Except.error e)
  | Except.ok st2 => (st2, Except.ok "OK")

/-- An HMAC tag over a JWT signing input.  The HMAC-SHA256 primitive lives in
the external jwt library; it is modelled as a tag that determines the secret,
the algorithm and the signed claims exactly, which is the unforgeability the
code relies on (a tag verifies under a secret iff it was produced with it). -/
structure HmacTag where
  secret : String
  alg : String
  claims : List (String × Int)
  deriving DecidableEq

/-- The signing operation of the external jwt library for the HMAC family. -/
def hmacSign (secret alg : String) (claims : List (String × Int)) : HmacTag :=
  { secret := secret, alg := alg, claims := claims }

/-- A signed token as the jwt library represents it: the header's alg, the
claims, and the signature over both.  Both claims the code writes are integers,
so claim values are modelled as Int. -/
structure JWTToken where
  alg : String
  claims : List (String × Int)
  sig : HmacTag
  deriving DecidableEq

/-- createJWT (api.go lines 54-64): builds the claims map with the literal
expiresAt 15000 and accountNumber from the account's Number field, then signs
with HS256 under the environment secret.  The now parameter is the ambient
clock available to the function; the body never reads it (no call into the
time package occurs). -/
def createJWT (secret : String) (account : AccountV0) (now : Nat) : JWTToken :=
  { alg := "HS256",
    claims := [("expiresAt", (15000 : Int)), ("accountNumber", account.Number)],
    sig := hmacSign secret "HS256"
             [("expiresAt", (15000 : Int)), ("accountNumber", account.Number)] }

/-- The algorithms of the jwt library's SigningMethodHMAC family. -/
def isHMACFamily (alg : String) : Bool :=
  alg == "HS256" || alg == "HS384" || alg == "HS512"

/-- validateJWT (api.go lines 66-74): jwt.Parse with a key function that
rejects any non-HMAC signing method, then verifies the signature under the
environment secret.  None of the claims the code issues is a registered claim,
so the library applies no further validation. -/
def validateJWT (secret : String) (t : JWTToken) : Except String JWTToken :=
  if isHMACFamily t.alg then
    if t.sig == hmacSign secret t.alg t.claims then Except.ok t
    else Except.error "token signature is invalid"
  else Except.error "Unexpected signing method"

/-- Modelled from the spec: the two-argument account factory that the V0
handleCreateAccount calls (api.go line 146) is absent from the sources (the
only NewAccount, in types.go, has the V1 signature).  Per the spec's account
factory section it produces a fresh account carrying the given names and the
current UTC time, with the storage-assigned identifier not yet known; the
account number it picks is passed in as the number parameter. -/
def NewAccountV0 (firstName lastName : String) (number : Int) (now : Nat) :
    AccountV0 :=
  { ID := 0, FirstName := firstName, LastName := lastName, Number := number,
    Balance := 0, CreatedAt := now }

/-- The anonymous response struct of the V0 handleCreateAccount (api.go lines
154-160): the signed token alongside the created account. -/
structure CreateAccountResponseV0 where
  Token : JWTToken
  Account : AccountV0
  deriving DecidableEq

/-- handleCreateAccount of the V0 server (api.go lines 141-162): decode the
body, build the account, insert it, sign a token for the account, and respond
200 with token and account together. -/
def handleCreateAccountV0 (secret : String) (st : GBState)
    (body : Option CreateAccountRequest) (number : Int) (now : Nat) :
    GBState × Except String CreateAccountResponseV0 :=
  match body with
  | none => (st, Except.error "could not decode create account request")
  | some req =>
      let account := NewAccountV0 req.FirstName req.LastName number now
      match StorageV0.CreateAccount st account with
      | Except.error e => (st, Except.error e)
      | Except.ok st2 =>
          (st2, Except.ok { Token := createJWT secret account now, Account := account })

/-- The three handler targets Run registers (api.go lines 83-92 and identically
lines 226-235). -/
inductive RouteTarget where
  | account
  | accountByID (id : String)
  | transfer
  deriving DecidableEq

/-- The route patterns Run registers, in registration order (api.go lines
85-87 and 228-230). -/
def registeredPatterns : List String := ["/account", "/account/{id}", "/transfer"]

/-- Splits a character list at every slash, the way a path is read as
segments. -/
def splitOnSlash : List Char → List (List Char)
  | [] => [[]]
  | c :: cs =>
      let r := splitOnSlash cs
      if c = '/' then [] :: r
      else
        match r with
        | [] => [[c]]
        | s :: ss => (c :: s) :: ss

/-- The gorilla/mux router as Run configures it: an exact match for /account
and /transfer, and /account/{id} where the id variable matches one non-empty
slash-free segment.  A path matching no pattern is dispatched to no handler
(the router's not-found response). -/
def muxMatch (path : String) : Option RouteTarget :=
  match splitOnSlash path.data with
  | [[], ['a', 'c', 'c', 'o', 'u', 'n', 't']] => some RouteTarget.account
  | [[], ['a', 'c', 'c', 'o', 'u', 'n', 't'], seg] =>
      if seg.isEmpty then none else some (RouteTarget.accountByID (String.mk seg))
  | [[], ['t', 'r', 'a', 'n', 's', 'f', 'e', 'r']] => some RouteTarget.transfer
  | _ => none

/-- An account whose storage identifier and number differ: id 5, number 7. -/
def acc57 : AccountV0 :=
  { ID := 5, FirstName := "a", LastName := "b", Number := 7, Balance := 0, CreatedAt := 0 }

/-- A V0 database holding exactly the account row with id 1. -/
def gbRow1 : GBRow :=
  { id := 1, firstName := "a", lastName := "b", number := 7, balance := 0, createdAt := 0 }

/-- The V0 one-row database with the serial already advanced past 1. -/
def gbOne : GBState := { rows := [gbRow1], nextId := 2 }

/-- A V1 database holding exactly one account row with id 1. -/
def pgOne : PGState :=
  { rows := [{ id := 1, firstName := "a", lastName := "b", email := "abc@abc.com",
               encryptedPassword := "e", balance := 0, createdAt := 0 }],
    nextId := 2 }

/-- A token signed by createJWT verifies under the same secret: the header alg
HS256 is in the HMAC family and the recomputed tag coincides. -/
theorem validateJWT_createJWT (secret : String) (a : AccountV0) (now : Nat) :
    validateJWT secret (createJWT secret a now) =
      Except.ok (createJWT secret a now) := by
  simp [validateJWT, createJWT, isHMACFamily, hmacSign]

/-- Looking up accountNumber in the claims createJWT writes yields the
account's Number field. -/
theorem lookup_accountNumber (secret : String) (a : AccountV0) (now : Nat) :
    List.lookup "accountNumber" (createJWT secret a now).claims = some a.Number := rfl

/-- C1 counterexample: the router Run configures dispatches a request for
/login to no handler at all — there is no login route to dispatch to. -/
theorem login_route_absent : muxMatch "/login" = none := by decide

/-- C1 (amended): Run registers exactly the patterns /account, /account/{id}
and /transfer; those paths are dispatched to their handlers, while /login
matches no registered pattern, so no login handler is ever invoked.  No
handler for /login exists anywhere in the sources. -/
theorem router_dispatch_amended :
    registeredPatterns = ["/account", "/account/{id}", "/transfer"] ∧
    muxMatch "/account" = some RouteTarget.account ∧
    muxMatch "/account/5" = some (RouteTarget.accountByID "5") ∧
    muxMatch "/transfer" = some RouteTarget.transfer ∧
    muxMatch "/login" = none := by decide

/-- C2 counterexample: two sequential creations with the identical request
(email abc@abc.com) both succeed, and afterwards the table holds two rows with
that email — the second request is not rejected. -/
theorem duplicate_email_two_rows :
    (twoCreates.2).isOk = true ∧
    twoCreates.1.emailCount "abc@abc.com" = 2 := by decide

/-- C2 (amended): no duplicate-email check exists anywhere on the creation
path; for every state and every request, running the same creation twice in
sequence succeeds both times and inserts two further rows carrying that
email. -/
theorem create_account_no_duplicate_check (st : PGState)
    (req : CreateAccountRequest) (t1 t2 : Nat) :
    ∃ st1 st2 a1 a2,
      handleCreateAccount st (some req) t1 = (st1, Except.ok a1) ∧
      handleCreateAccount st1 (some req) t2 = (st2, Except.ok a2) ∧
      st2.emailCount req.Email = st.emailCount req.Email + 2 := by
  refine ⟨_, _, _, _, rfl, rfl, ?_⟩
  simp [PGState.emailCount, handleCreateAccount, NewAccount,
    bcryptGenerateFromPassword, StorageV1.CreateAccount, List.filter_append]

/-- C3 counterexample: a request with empty names, an email containing no
at-sign and a one-character password is accepted: the handler returns success
and the account row is stored. -/
theorem invalid_request_accepted :
    badReq.FirstName = "" ∧ badReq.Password.length = 1 ∧
    badReq.Email.data.contains (Char.ofNat 64) = false ∧
    ((handleCreateAccount pgEmpty (some badReq) 0).2).isOk = true ∧
    (handleCreateAccount pgEmpty (some badReq) 0).1.rows.length = 1 := by decide

/-- C3 (amended): the constraints exist only as validate struct tags on
CreateAccountRequest; no validator runs, so every decodable request — whatever
its field contents — is accepted, the account is created and a row is
stored. -/
theorem create_account_no_validation (st : PGState)
    (req : CreateAccountRequest) (now : Nat) :
    createAccountValidateTags.length = 4 ∧
    ∃ a st2, handleCreateAccount st (some req) now = (st2, Except.ok a) ∧
      st2.rows.length = st.rows.length + 1 := by
  refine ⟨rfl, _, _, rfl, ?_⟩
  simp [handleCreateAccount, NewAccount, bcryptGenerateFromPassword,
    StorageV1.CreateAccount]

/-- C4 counterexample: for the spec's worked example request on a fresh table,
the inserted row receives the serial id 1, but the 200 response carries the
in-memory account whose id is still the zero value 0. -/
theorem response_id_zero_example :
    ((handleCreateAccount pgEmpty (some exampleReq) 0).2.map (fun a => a.ID)) =
      Except.ok 0 ∧
    ((handleCreateAccount pgEmpty (some exampleReq) 0).1.rows.map (fun r => r.id)) =
      [1] ∧
    (0 : Int) ≠ 1 := by decide

/-- C4 (amended): every well-formed creation request succeeds with a 200
response whose account object has id 0 (the Go zero value): the row is stored
under the storage-assigned serial id, which is never read back into the
response. -/
theorem response_id_is_zero (st : PGState) (req : CreateAccountRequest)
    (now : Nat) :
    ∃ a st2, handleCreateAccount st (some req) now = (st2, Except.ok a) ∧
      a.ID = 0 ∧
      st2.rows.map (fun r => r.id) = st.rows.map (fun r => r.id) ++ [st.nextId] := by
  refine ⟨_, _, rfl, rfl, ?_⟩
  simp [handleCreateAccount, NewAccount, bcryptGenerateFromPassword,
    StorageV1.CreateAccount]

/-- C5 (confirmed): the JSON view of an Account is independent of the
EncryptedPassword field (its json tag is the omission marker), and the emitted
keys include no password or password-hash field. -/
theorem account_json_omits_password (a : Account) (p : String) :
    Account.jsonFields { a with EncryptedPassword := p } = Account.jsonFields a ∧
    ((Account.jsonFields a).map Prod.fst) =
      ["id", "firstName", "lastName", "email", "phone", "balance", "createdAt"] ∧
    ((Account.jsonFields a).map Prod.fst).contains "password" = false ∧
    ((Account.jsonFields a).map Prod.fst).contains "encryptedPassword" = false ∧
    ((Account.jsonFields a).map Prod.fst).contains "EncryptedPassword" = false :=
  ⟨rfl, rfl, rfl, rfl, rfl⟩

/-- C6 counterexample: for the account with storage identifier 5 and number 7,
the token validates under the issuing secret but its claims are exactly
expiresAt 15000 and accountNumber 7 — the identifier 5 appears in no claim, so
the decoded claims do not carry the account identifier. -/
theorem jwt_claims_not_storage_id :
    acc57.ID = 5 ∧
    validateJWT "secret1" (createJWT "secret1" acc57 0) =
      Except.ok (createJWT "secret1" acc57 0) ∧
    (createJWT "secret1" acc57 0).claims =
      [("expiresAt", 15000), ("accountNumber", 7)] ∧
    ((createJWT "secret1" acc57 0).claims.map Prod.snd).contains 5 = false := by
  decide

/-- C6 (amended): a token produced by createJWT validates under the issuing
secret and its accountNumber claim equals the account's Number field (which is
set in memory and need not equal the storage-assigned identifier); a token
checked under any different secret is rejected. -/
theorem jwt_roundtrip_and_wrong_secret (secret wrong : String) (a : AccountV0)
    (now : Nat) (h : wrong ≠ secret) :
    validateJWT secret (createJWT secret a now) =
      Except.ok (createJWT secret a now) ∧
    List.lookup "accountNumber" (createJWT secret a now).claims = some a.Number ∧
    validateJWT wrong (createJWT secret a now) =
      Except.error "token signature is invalid" := by
  refine ⟨validateJWT_createJWT secret a now, lookup_accountNumber secret a now, ?_⟩
  simp [validateJWT, createJWT, isHMACFamily, hmacSign, HmacTag.mk.injEq]
  intro hc
  exact absurd hc.symm h

/-- Witness for C6 (amended) at the secrets s1, s2 and the account acc57. -/
theorem jwt_roundtrip_witness :
    validateJWT "s1" (createJWT "s1" acc57 0) =
      Except.ok (createJWT "s1" acc57 0) ∧
    List.lookup "accountNumber" (createJWT "s1" acc57 0).claims =
      some acc57.Number ∧
    validateJWT "s2" (createJWT "s1" acc57 0) =
      Except.error "token signature is invalid" :=
  jwt_roundtrip_and_wrong_secret "s1" "s2" acc57 0 (by decide)

/-- C7 counterexample: a request with method GET and a well-formed body is
accepted by the transfer handler exactly like a POST — it returns 200 with the
echoed request — so the endpoint does not accept only the POST method. -/
theorem transfer_get_accepted :
    handleTransfer pgEmpty "GET" (some { ToAccount := 1, Amount := 50 }) =
      (pgEmpty, Except.ok { ToAccount := 1, Amount := 50 }) ∧
    "GET" ≠ "POST" :=
  ⟨rfl, by decide⟩

/-- C7 (amended): the transfer handler ignores the request method entirely;
for every state, method and well-formed body it returns 200 echoing the
decoded request unchanged, and the stored account state is left exactly as it
was. -/
theorem transfer_echo_no_mutation (st : PGState) (method : String)
    (tr : TransferRequest) :
    handleTransfer st method (some tr) = (st, Except.ok tr) := rfl

/-- C8 (code bug evaluated at the failing input): on the one-row database,
DeleteAccount of storage.go returns success while leaving the state unchanged,
the DELETE handler therefore answers 200 OK, and a subsequent get-by-id still
finds the row; the storage variant embedded in api.go, by contrast, does
remove the row. -/
theorem delete_account_noop_eval :
    StorageV0.DeleteAccount gbOne 1 = Except.ok gbOne ∧
    handleAccountByIDDelete gbOne 1 = (gbOne, Except.ok "OK") ∧
    StorageV0.GetAccountByID gbOne 1 = Except.ok gbRow1 ∧
    Except.map (fun s => s.rows) (StorageV1.DeleteAccount pgOne 1) =
      Except.ok [] := by decide

/-- C9 (confirmed): in the JWT-enabled server, every decodable creation
request yields a 200 response carrying, alongside the created account, a token
signed for exactly that account; the token verifies under the server secret
and its accountNumber claim is the account's number. -/
theorem create_account_response_has_token (secret : String) (st : GBState)
    (req : CreateAccountRequest) (number : Int) (now : Nat) :
    ∃ acct st2,
      handleCreateAccountV0 secret st (some req) number now =
        (st2, Except.ok { Token := createJWT secret acct now, Account := acct }) ∧
      validateJWT secret (createJWT secret acct now) =
        Except.ok (createJWT secret acct now) ∧
      List.lookup "accountNumber" (createJWT secret acct now).claims =
        some acct.Number :=
  ⟨NewAccountV0 req.FirstName req.LastName number now, _, rfl,
   validateJWT_createJWT secret (NewAccountV0 req.FirstName req.LastName number now) now,
   lookup_accountNumber secret (NewAccountV0 req.FirstName req.LastName number now) now⟩

/-- C10 (confirmed): the token claims carry the literal expiresAt 15000 for
every account and every issuance time, and two tokens issued at any two times
are identical — no issuance-time-dependent expiry is encoded. -/
theorem jwt_expiry_constant (secret : String) (a : AccountV0) (t1 t2 : Nat) :
    List.lookup "expiresAt" (createJWT secret a t1).claims = some 15000 ∧
    createJWT secret a t1 = createJWT secret a t2 :=
  ⟨rfl, rfl⟩
